import Mathlib

/-!
# FakeContainerDB (api/containerserver/fakes/fake_container_db.go)

A shallow embedding of the counterfeiter-generated test double for
`containerserver.ContainerDB`, and the properties of its two lookups
(`GetContainer`, `FindContainersByIdentifier`), their call logs and their
`...Returns` configuration methods.

Modelling conventions.

* The Go struct is a Lean structure; every method is a function that takes the
  receiver and returns its results together with the receiver after the call
  (methods that do not write return only their results).
* `db.Container`, `db.ContainerIdentifier` and the `error` interface are declared in
  packages outside this file; the embedding is parametric in them (`Container`,
  `ContainerIdentifier`, `Err`).  `Err` stands for all values of Go's `error`,
  `nil` included.
* A Go function value that may be `nil` is an `Option` of a function.  A stub is a
  Go closure: what it returns is the function in the stub field; what it writes
  to the fake while it runs is carried apart, in `StubWrites`.  `GetContainer`
  and `FindContainersByIdentifier` embed the lookups for closures that write
  nothing; `GetContainerWithWrites` and `FindContainersByIdentifierWithWrites`
  embed them for closures that write.
* A slice is a `List`; `append` is `++ [x]`.  Indexing a slice out of range
  panics in Go: the `...ArgsForCall` accessors return `none` there.
* The two `sync.RWMutex` fields only serialise access to the call logs; the
  embedding is sequential and carries no field for them.
* The fake stands in for the implementation of `containerserver.ContainerDB`.
  That implementation, the Container Record Store, is in another package; its
  lookup by identifier is modelled from the design document (`findByIdentifier`,
  `lookupByIdentifier`) over the record type of its data model.
-/

namespace Fakes

/-- The anonymous struct `struct { handle string }` of `getContainerArgsForCall`. -/
structure GetContainerArgs where
  handle : String
  deriving DecidableEq, Repr

/-- The anonymous struct `struct { result1 db.Container; result2 bool; result3 error }`. -/
structure GetContainerResults (Container Err : Type) where
  result1 : Container
  result2 : Bool
  result3 : Err

/-- The anonymous struct `struct { arg1 db.ContainerIdentifier }`. -/
structure FindContainersByIdentifierArgs (ContainerIdentifier : Type) where
  arg1 : ContainerIdentifier

/-- The anonymous struct `struct { result1 []db.Container; result2 error }`. -/
structure FindContainersByIdentifierResults (Container Err : Type) where
  result1 : List Container
  result2 : Err

/-- The struct `FakeContainerDB`, field for field (mutexes apart). -/
structure FakeContainerDB (Container ContainerIdentifier Err : Type) where
  GetContainerStub : Option (String → Container × Bool × Err)
  getContainerArgsForCall : List GetContainerArgs
  getContainerReturns : GetContainerResults Container Err
  FindContainersByIdentifierStub : Option (ContainerIdentifier → List Container × Err)
  findContainersByIdentifierArgsForCall :
    List (FindContainersByIdentifierArgs ContainerIdentifier)
  findContainersByIdentifierReturns : FindContainersByIdentifierResults Container Err

variable {Container ContainerIdentifier Err : Type}

/-- The zero value `new(FakeContainerDB)`: nil stubs, nil slices, zero-valued
configured returns.  `zeroContainer` is the zero value of `db.Container` and
`nilErr` the nil `error`. -/
def zeroValue (zeroContainer : Container) (nilErr : Err) :
    FakeContainerDB Container ContainerIdentifier Err :=
  { GetContainerStub := none
    getContainerArgsForCall := []
    getContainerReturns := ⟨zeroContainer, false, nilErr⟩
    FindContainersByIdentifierStub := none
    findContainersByIdentifierArgsForCall := []
    findContainersByIdentifierReturns := ⟨[], nilErr⟩ }

/-- The method `GetContainer`: append the handle to the call log, then return what
the stub returns if one is installed, else the configured returns.  The stub
is taken to write nothing to the fake; `GetContainerWithWrites` lifts that. -/
def GetContainer (fake : FakeContainerDB Container ContainerIdentifier Err)
    (handle : String) :
    (Container × Bool × Err) × FakeContainerDB Container ContainerIdentifier Err :=
  let fake1 := { fake with
    getContainerArgsForCall := fake.getContainerArgsForCall ++ [GetContainerArgs.mk handle] }
  match fake1.GetContainerStub with
  | some stub => (stub handle, fake1)
  | none =>
    ((fake1.getContainerReturns.result1, fake1.getContainerReturns.result2,
      fake1.getContainerReturns.result3), fake1)

/-- The method `GetContainerCallCount`: `len(fake.getContainerArgsForCall)`. -/
def GetContainerCallCount (fake : FakeContainerDB Container ContainerIdentifier Err) :
    Nat :=
  fake.getContainerArgsForCall.length

/-- The method `GetContainerArgsForCall`: `fake.getContainerArgsForCall[i].handle`;
`none` is the index-out-of-range panic. -/
def GetContainerArgsForCall (fake : FakeContainerDB Container ContainerIdentifier Err)
    (i : Int) : Option String :=
  if 0 ≤ i then
    match fake.getContainerArgsForCall[i.toNat]? with
    | some args => some args.handle
    | none => none
  else none

/-- The method `GetContainerReturns`: clear the stub, store the three results. -/
def GetContainerReturns (fake : FakeContainerDB Container ContainerIdentifier Err)
    (result1 : Container) (result2 : Bool) (result3 : Err) :
    FakeContainerDB Container ContainerIdentifier Err :=
  let fake1 := { fake with GetContainerStub := none }
  { fake1 with getContainerReturns := ⟨result1, result2, result3⟩ }

/-- The method `FindContainersByIdentifier`: append the argument to the call log,
then return what the stub returns if one is installed, else the configured
returns.  The stub is taken to write nothing to the fake;
`FindContainersByIdentifierWithWrites` lifts that. -/
def FindContainersByIdentifier (fake : FakeContainerDB Container ContainerIdentifier Err)
    (arg1 : ContainerIdentifier) :
    (List Container × Err) × FakeContainerDB Container ContainerIdentifier Err :=
  let fake1 := { fake with
    findContainersByIdentifierArgsForCall :=
      fake.findContainersByIdentifierArgsForCall ++
        [FindContainersByIdentifierArgs.mk arg1] }
  match fake1.FindContainersByIdentifierStub with
  | some stub => (stub arg1, fake1)
  | none =>
    ((fake1.findContainersByIdentifierReturns.result1,
      fake1.findContainersByIdentifierReturns.result2), fake1)

/-- The method `FindContainersByIdentifierCallCount`. -/
def FindContainersByIdentifierCallCount
    (fake : FakeContainerDB Container ContainerIdentifier Err) : Nat :=
  fake.findContainersByIdentifierArgsForCall.length

/-- The method `FindContainersByIdentifierArgsForCall`; `none` is the
index-out-of-range panic. -/
def FindContainersByIdentifierArgsForCall
    (fake : FakeContainerDB Container ContainerIdentifier Err) (i : Int) :
    Option ContainerIdentifier :=
  if 0 ≤ i then
    match fake.findContainersByIdentifierArgsForCall[i.toNat]? with
    | some args => some args.arg1
    | none => none
  else none

/-- The method `FindContainersByIdentifierReturns`: clear the stub, store the two
results. -/
def FindContainersByIdentifierReturns
    (fake : FakeContainerDB Container ContainerIdentifier Err)
    (result1 : List Container) (result2 : Err) :
    FakeContainerDB Container ContainerIdentifier Err :=
  let fake1 := { fake with FindContainersByIdentifierStub := none }
  { fake1 with findContainersByIdentifierReturns := ⟨result1, result2⟩ }

/-! ## Sequences of operations on one fake -/

/-- Everything a client can do to a `FakeContainerDB`: its eight methods and the
assignment of either exported stub field. -/
inductive Op (Container ContainerIdentifier Err : Type) where
  | getContainer (handle : String)
  | getContainerCallCount
  | getContainerArgsForCall (i : Int)
  | getContainerReturns (result1 : Container) (result2 : Bool) (result3 : Err)
  | setGetContainerStub (stub : Option (String → Container × Bool × Err))
  | findContainersByIdentifier (arg1 : ContainerIdentifier)
  | findContainersByIdentifierCallCount
  | findContainersByIdentifierArgsForCall (i : Int)
  | findContainersByIdentifierReturns (result1 : List Container) (result2 : Err)
  | setFindContainersByIdentifierStub
      (stub : Option (ContainerIdentifier → List Container × Err))

/-- The fake after one operation.  The four accessors only read (an accessor that
panics on its index has written nothing either). -/
def Op.apply (op : Op Container ContainerIdentifier Err)
    (fake : FakeContainerDB Container ContainerIdentifier Err) :
    FakeContainerDB Container ContainerIdentifier Err :=
  match op with
  | .getContainer handle => (GetContainer fake handle).2
  | .getContainerCallCount => fake
  | .getContainerArgsForCall _ => fake
  | .getContainerReturns r1 r2 r3 => GetContainerReturns fake r1 r2 r3
  | .setGetContainerStub stub => { fake with GetContainerStub := stub }
  | .findContainersByIdentifier arg1 => (FindContainersByIdentifier fake arg1).2
  | .findContainersByIdentifierCallCount => fake
  | .findContainersByIdentifierArgsForCall _ => fake
  | .findContainersByIdentifierReturns r1 r2 => FindContainersByIdentifierReturns fake r1 r2
  | .setFindContainersByIdentifierStub stub =>
    { fake with FindContainersByIdentifierStub := stub }

/-- The fake after a sequence of operations, first operation first. -/
def run (ops : List (Op Container ContainerIdentifier Err))
    (fake : FakeContainerDB Container ContainerIdentifier Err) :
    FakeContainerDB Container ContainerIdentifier Err :=
  ops.foldl (fun f op => op.apply f) fake

/-- The handles of the `GetContainer` calls in a sequence of operations, in call
order. -/
def handlesOf : List (Op Container ContainerIdentifier Err) → List String
  | [] => []
  | .getContainer handle :: ops => handle :: handlesOf ops
  | _ :: ops => handlesOf ops


/-! ## Stubs that write to the fake

Both lookups release their mutex before they call the stub, and the stub is code
of the test: it may call the fake's methods or assign its exported fields. -/

/-- What the installed closures do to the fake while they run, as a function of
their argument and of the fake at the moment they are called. -/
structure StubWrites (Container ContainerIdentifier Err : Type) where
  getContainer : String → FakeContainerDB Container ContainerIdentifier Err →
    FakeContainerDB Container ContainerIdentifier Err
  findContainersByIdentifier : ContainerIdentifier →
    FakeContainerDB Container ContainerIdentifier Err →
    FakeContainerDB Container ContainerIdentifier Err

/-- Closures that write nothing. -/
def noWrites : StubWrites Container ContainerIdentifier Err :=
  { getContainer := fun _ fake => fake
    findContainersByIdentifier := fun _ fake => fake }

/-- The method `GetContainer` with a stub that may write: the handle is appended
to the call log, then the stub, if installed, runs on the fake so far (its
results are returned, its writes stay); else the configured returns are
returned. -/
def GetContainerWithWrites (writes : StubWrites Container ContainerIdentifier Err)
    (fake : FakeContainerDB Container ContainerIdentifier Err) (handle : String) :
    (Container × Bool × Err) × FakeContainerDB Container ContainerIdentifier Err :=
  let fake1 := { fake with
    getContainerArgsForCall := fake.getContainerArgsForCall ++ [GetContainerArgs.mk handle] }
  match fake1.GetContainerStub with
  | some stub => (stub handle, writes.getContainer handle fake1)
  | none =>
    ((fake1.getContainerReturns.result1, fake1.getContainerReturns.result2,
      fake1.getContainerReturns.result3), fake1)

/-- The method `FindContainersByIdentifier` with a stub that may write. -/
def FindContainersByIdentifierWithWrites
    (writes : StubWrites Container ContainerIdentifier Err)
    (fake : FakeContainerDB Container ContainerIdentifier Err)
    (arg1 : ContainerIdentifier) :
    (List Container × Err) × FakeContainerDB Container ContainerIdentifier Err :=
  let fake1 := { fake with
    findContainersByIdentifierArgsForCall :=
      fake.findContainersByIdentifierArgsForCall ++
        [FindContainersByIdentifierArgs.mk arg1] }
  match fake1.FindContainersByIdentifierStub with
  | some stub => (stub arg1, writes.findContainersByIdentifier arg1 fake1)
  | none =>
    ((fake1.findContainersByIdentifierReturns.result1,
      fake1.findContainersByIdentifierReturns.result2), fake1)

/-! ## Concrete record types -/

/-- Modelled from the spec: the lifecycle states of a container record (§3); the
declaration of `db.Container` is in package `db`, outside this file. -/
inductive ContainerState where
  | creating | created | active | expired | orphaned | destroying
  deriving DecidableEq, Repr

/-- Modelled from the spec: the scope of a `ContainerIdentifier` (§3). -/
structure IdentifierScope where
  pipelineID : Nat
  resourceID : Option Nat
  buildID : Option Nat
  planID : Option String
  deriving DecidableEq, Repr

/-- Modelled from the spec: `db.ContainerIdentifier` as the composite value of §3;
its declaration is in package `db`, outside this file. -/
structure SpecContainerIdentifier where
  scope : IdentifierScope
  stepName : String
  containerPurpose : String
  configHash : String
  deriving DecidableEq, Repr

/-- Modelled from the spec: `db.Container` as the ContainerRecord of §3; its
declaration is in package `db`, outside this file.  Timestamps are natural
numbers. -/
structure ContainerRecord where
  handle : String
  identifier : SpecContainerIdentifier
  workerName : String
  state : ContainerState
  createdAt : Nat
  lastUsedAt : Nat
  buildID : Option Nat
  pipelineID : Option Nat
  resourceCheckID : Option Nat
  deriving DecidableEq, Repr

/-! ## The record store behind the interface

`FakeContainerDB` stands in for the implementation of `containerserver.ContainerDB`;
that implementation, the Container Record Store of the spec, is not in this
file's package. -/

/-- Modelled from the spec: the Container Record Store (§2, §4.2), whose code is
not under the fake's package: the stored records, in the order in which they
were inserted. -/
abbrev ContainerRecordStore := List ContainerRecord

/-- Modelled from the spec: one step of the ordering inside the missing store
operation `findByIdentifier` (§4.2, most-recently-used first): the record goes
in front of the first record that was not used more recently than it. -/
def insertByRecency (r : ContainerRecord) : List ContainerRecord → List ContainerRecord
  | [] => [r]
  | c :: cs =>
    if c.lastUsedAt ≤ r.lastUsedAt then r :: c :: cs else c :: insertByRecency r cs

/-- Modelled from the spec: the ordering inside the missing store operation
`findByIdentifier` (§4.2, most-recently-used first), by insertion. -/
def sortByRecency : List ContainerRecord → List ContainerRecord
  | [] => []
  | r :: rs => insertByRecency r (sortByRecency rs)

/-- Modelled from the spec: the store operation `findByIdentifier` (§4.2), which
the fake's `FindContainersByIdentifier` stands in for and whose code is missing:
all records for that identifier, most-recently-used first. -/
def findByIdentifier (store : ContainerRecordStore) (identifier : SpecContainerIdentifier) :
    List ContainerRecord :=
  sortByRecency (store.filter (fun r => decide (r.identifier = identifier)))

/-- Modelled from the spec: the Registry Service operation `lookupByIdentifier`
(§4.3), whose code is missing: a read-only passthrough to the store. -/
def lookupByIdentifier (store : ContainerRecordStore) (identifier : SpecContainerIdentifier) :
    List ContainerRecord :=
  findByIdentifier store identifier

/-! ## Example data -/

/-- The zero value of the record type: empty strings, zeros, absent options and
the first state. -/
def zeroContainerRecord : ContainerRecord :=
  { handle := ""
    identifier :=
      { scope := { pipelineID := 0, resourceID := none, buildID := none, planID := none }
        stepName := ""
        containerPurpose := ""
        configHash := "" }
    workerName := ""
    state := .creating
    createdAt := 0
    lastUsedAt := 0
    buildID := none
    pipelineID := none
    resourceCheckID := none }

/-- An identifier for the examples. -/
def sampleIdentifier : SpecContainerIdentifier :=
  { scope := { pipelineID := 1, resourceID := none, buildID := some 42, planID := none }
    stepName := "unit"
    containerPurpose := "task"
    configHash := "c0ffee" }

/-- A second identifier for the examples. -/
def otherIdentifier : SpecContainerIdentifier :=
  { sampleIdentifier with stepName := "integration" }

/-- The reusable record for `sampleIdentifier`: state `created`, last used at
time `t`. -/
def recordUsedAt (handle : String) (t : Nat) : ContainerRecord :=
  { handle := handle
    identifier := sampleIdentifier
    workerName := "worker-1"
    state := .created
    createdAt := 0
    lastUsedAt := t
    buildID := some 42
    pipelineID := some 1
    resourceCheckID := none }

/-- A historical record for `sampleIdentifier`: state `expired`, last used at
time `t`. -/
def historicalRecord (handle : String) (t : Nat) : ContainerRecord :=
  { recordUsedAt handle t with state := .expired }

/-- The fake of the examples: the zero-value fake over the concrete record types,
errors being optional messages. -/
def sampleFake : FakeContainerDB ContainerRecord SpecContainerIdentifier (Option String) :=
  zeroValue zeroContainerRecord none

/-- A `GetContainerStub` for the examples: every handle is found. -/
def sampleGetStub (handle : String) : ContainerRecord × Bool × Option String :=
  (recordUsedAt handle 7, true, none)

/-- A `FindContainersByIdentifierStub` for the examples. -/
def sampleFindStub (_id : SpecContainerIdentifier) : List ContainerRecord × Option String :=
  ([recordUsedAt "h9" 9, historicalRecord "h4" 4], none)

/-- The fake of the examples after `GetContainerReturns` and
`FindContainersByIdentifierReturns`: no stub, a found container and two records
for its identifier. -/
def configuredFake : FakeContainerDB ContainerRecord SpecContainerIdentifier (Option String) :=
  FindContainersByIdentifierReturns
    (GetContainerReturns sampleFake (recordUsedAt "h3" 3) true none)
    [recordUsedAt "h3" 3, historicalRecord "h2" 2] none

/-- The fake of the examples with both stubs installed on top of configured
returns that differ from what the stubs return. -/
def stubbedFake : FakeContainerDB ContainerRecord SpecContainerIdentifier (Option String) :=
  { sampleFake with
    GetContainerStub := some sampleGetStub
    getContainerReturns := GetContainerResults.mk (historicalRecord "other" 1) false (some "boom")
    FindContainersByIdentifierStub := some sampleFindStub
    findContainersByIdentifierReturns :=
      FindContainersByIdentifierResults.mk [] (some "boom") }

/-- Stubs for the examples that reconfigure the fake while they run: the
`GetContainer` stub calls `GetContainerReturns(other, false, gone)`, the
`FindContainersByIdentifier` stub calls
`FindContainersByIdentifierReturns(nil, gone)`. -/
def reconfiguringWrites :
    StubWrites ContainerRecord SpecContainerIdentifier (Option String) :=
  { getContainer := fun _ fake =>
      GetContainerReturns fake (historicalRecord "other" 2) false (some "gone")
    findContainersByIdentifier := fun _ fake =>
      FindContainersByIdentifierReturns fake [] (some "gone") }

/-- A store for the examples: three records for `sampleIdentifier`, inserted in
the order t2, t3, t1; the most recently used is the reusable one. -/
def sampleStore : ContainerRecordStore :=
  [historicalRecord "h2" 2, recordUsedAt "h3" 3, historicalRecord "h1" 1]

/-! ## Helper lemmas -/

theorem getContainer_state (fake : FakeContainerDB Container ContainerIdentifier Err)
    (handle : String) :
    (GetContainer fake handle).2 = { fake with
      getContainerArgsForCall :=
        fake.getContainerArgsForCall ++ [GetContainerArgs.mk handle] } := by
  unfold GetContainer
  cases hstub : fake.GetContainerStub <;> simp [hstub]

theorem findContainersByIdentifier_state
    (fake : FakeContainerDB Container ContainerIdentifier Err)
    (arg1 : ContainerIdentifier) :
    (FindContainersByIdentifier fake arg1).2 = { fake with
      findContainersByIdentifierArgsForCall :=
        fake.findContainersByIdentifierArgsForCall ++
          [FindContainersByIdentifierArgs.mk arg1] } := by
  unfold FindContainersByIdentifier
  cases hstub : fake.FindContainersByIdentifierStub <;> simp [hstub]

theorem getContainer_of_no_stub (fake : FakeContainerDB Container ContainerIdentifier Err)
    (handle : String) (hstub : fake.GetContainerStub = none) :
    (GetContainer fake handle).1 =
      (fake.getContainerReturns.result1, fake.getContainerReturns.result2,
        fake.getContainerReturns.result3) := by
  unfold GetContainer
  simp [hstub]

theorem getContainer_of_stub (fake : FakeContainerDB Container ContainerIdentifier Err)
    (handle : String) (stub : String → Container × Bool × Err)
    (hstub : fake.GetContainerStub = some stub) :
    (GetContainer fake handle).1 = stub handle := by
  unfold GetContainer
  simp [hstub]

theorem findContainersByIdentifier_of_no_stub
    (fake : FakeContainerDB Container ContainerIdentifier Err)
    (arg1 : ContainerIdentifier) (hstub : fake.FindContainersByIdentifierStub = none) :
    (FindContainersByIdentifier fake arg1).1 =
      (fake.findContainersByIdentifierReturns.result1,
        fake.findContainersByIdentifierReturns.result2) := by
  unfold FindContainersByIdentifier
  simp [hstub]

theorem findContainersByIdentifier_of_stub
    (fake : FakeContainerDB Container ContainerIdentifier Err)
    (arg1 : ContainerIdentifier) (stub : ContainerIdentifier → List Container × Err)
    (hstub : fake.FindContainersByIdentifierStub = some stub) :
    (FindContainersByIdentifier fake arg1).1 = stub arg1 := by
  unfold FindContainersByIdentifier
  simp [hstub]

theorem apply_getContainerArgsForCall (op : Op Container ContainerIdentifier Err)
    (fake : FakeContainerDB Container ContainerIdentifier Err) :
    (op.apply fake).getContainerArgsForCall =
      fake.getContainerArgsForCall ++ (handlesOf [op]).map GetContainerArgs.mk := by
  cases op <;>
    simp [Op.apply, handlesOf, getContainer_state, findContainersByIdentifier_state,
      GetContainerReturns, FindContainersByIdentifierReturns]

theorem handlesOf_cons (op : Op Container ContainerIdentifier Err)
    (ops : List (Op Container ContainerIdentifier Err)) :
    handlesOf (op :: ops) = handlesOf [op] ++ handlesOf ops := by
  cases op <;> simp [handlesOf]

theorem run_getContainerArgsForCall (ops : List (Op Container ContainerIdentifier Err))
    (fake : FakeContainerDB Container ContainerIdentifier Err) :
    (run ops fake).getContainerArgsForCall =
      fake.getContainerArgsForCall ++ (handlesOf ops).map GetContainerArgs.mk := by
  induction ops generalizing fake with
  | nil => simp [run, handlesOf]
  | cons op ops ih =>
    have hstep : run (op :: ops) fake = run ops (op.apply fake) := rfl
    rw [hstep, ih, apply_getContainerArgsForCall, handlesOf_cons op ops]
    simp

/-! ## Configured returns -/

/-- C1: from any fake, with or without a stub installed, after
GetContainerReturns(c, found, err) the next GetContainer(h) returns exactly
(c, found, err), for every handle h. -/
theorem getContainer_after_returns
    (fake : FakeContainerDB Container ContainerIdentifier Err)
    (c : Container) (found : Bool) (err : Err) (h : String) :
    (GetContainer (GetContainerReturns fake c found err) h).1 = (c, found, err) := by
  rw [getContainer_of_no_stub _ _ rfl]
  rfl

/-- C2: from any fake, after FindContainersByIdentifierReturns(cs, e) the call
FindContainersByIdentifier(id) returns (cs, e) for every identifier id: the
sequence has the same length and the same element at every position. -/
theorem findContainersByIdentifier_after_returns
    (fake : FakeContainerDB Container ContainerIdentifier Err)
    (cs : List Container) (e : Err) (id : ContainerIdentifier) :
    (FindContainersByIdentifier (FindContainersByIdentifierReturns fake cs e) id).1
        = (cs, e) ∧
    (FindContainersByIdentifier (FindContainersByIdentifierReturns fake cs e) id).1.1.length
        = cs.length ∧
    ∀ i : Nat,
      (FindContainersByIdentifier (FindContainersByIdentifierReturns fake cs e) id).1.1[i]?
        = cs[i]? := by
  have hres :
      (FindContainersByIdentifier (FindContainersByIdentifierReturns fake cs e) id).1
        = (cs, e) := by
    rw [findContainersByIdentifier_of_no_stub _ _ rfl]
    rfl
  refine ⟨hres, ?_, ?_⟩
  · rw [hres]
  · intro i
    rw [hres]

/-! ## Stubs -/

/-- C3: when GetContainerStub is set to f, GetContainer(h) returns exactly f(h)
for every handle h, whatever the configured getContainerReturns are; when
FindContainersByIdentifierStub is set to g, FindContainersByIdentifier(id)
returns exactly g(id), whatever the configured returns are. -/
theorem lookup_passes_through_stub
    (fake : FakeContainerDB Container ContainerIdentifier Err) :
    (∀ f : String → Container × Bool × Err, fake.GetContainerStub = some f →
      ∀ h : String,
        (GetContainer fake h).1 = f h ∧
        ∀ r : GetContainerResults Container Err,
          (GetContainer { fake with getContainerReturns := r } h).1 = f h) ∧
    (∀ g : ContainerIdentifier → List Container × Err,
      fake.FindContainersByIdentifierStub = some g →
      ∀ id : ContainerIdentifier,
        (FindContainersByIdentifier fake id).1 = g id ∧
        ∀ r : FindContainersByIdentifierResults Container Err,
          (FindContainersByIdentifier
            { fake with findContainersByIdentifierReturns := r } id).1 = g id) := by
  refine ⟨?_, ?_⟩
  · intro f hf h
    refine ⟨getContainer_of_stub fake h f hf, ?_⟩
    intro r
    exact getContainer_of_stub _ h f hf
  · intro g hg id
    refine ⟨findContainersByIdentifier_of_stub fake id g hg, ?_⟩
    intro r
    exact findContainersByIdentifier_of_stub _ id g hg

/-- C3 at a concrete fake with both stubs installed and other values configured. -/
theorem lookup_passes_through_stub_witness :
    stubbedFake.GetContainerStub = some sampleGetStub ∧
    stubbedFake.FindContainersByIdentifierStub = some sampleFindStub ∧
    (GetContainer stubbedFake "h1").1 = (recordUsedAt "h1" 7, true, none) ∧
    (FindContainersByIdentifier stubbedFake sampleIdentifier).1 =
      ([recordUsedAt "h9" 9, historicalRecord "h4" 4], none) :=
  ⟨rfl, rfl,
    ((lookup_passes_through_stub stubbedFake).1 sampleGetStub rfl "h1").1,
    ((lookup_passes_through_stub stubbedFake).2 sampleFindStub rfl sampleIdentifier).1⟩

/-! ## Call log -/

/-- C4: starting from a zero-value fake, after any sequence of operations in which
GetContainer is called with handles h_0, ..., h_(n-1) in that order,
GetContainerCallCount() is n and GetContainerArgsForCall(i) returns h_i for
every i below n. -/
theorem getContainer_call_log (zeroContainer : Container) (nilErr : Err)
    (ops : List (Op Container ContainerIdentifier Err)) :
    GetContainerCallCount (run ops (zeroValue zeroContainer nilErr)) =
      (handlesOf ops).length ∧
    ∀ i : Fin (handlesOf ops).length,
      GetContainerArgsForCall (run ops (zeroValue zeroContainer nilErr)) (i.val : Int) =
        some ((handlesOf ops).get i) := by
  have hlog := run_getContainerArgsForCall ops
    (zeroValue zeroContainer nilErr : FakeContainerDB Container ContainerIdentifier Err)
  have hnil : (zeroValue zeroContainer nilErr :
      FakeContainerDB Container ContainerIdentifier Err).getContainerArgsForCall = [] := rfl
  rw [hnil, List.nil_append] at hlog
  refine ⟨?_, ?_⟩
  · simp [GetContainerCallCount, hlog]
  · intro i
    simp [GetContainerArgsForCall, hlog]

/-! ## Frame -/

theorem getContainerWithWrites_noWrites
    (fake : FakeContainerDB Container ContainerIdentifier Err) (handle : String) :
    GetContainerWithWrites noWrites fake handle = GetContainer fake handle := rfl

theorem findContainersByIdentifierWithWrites_noWrites
    (fake : FakeContainerDB Container ContainerIdentifier Err)
    (arg1 : ContainerIdentifier) :
    FindContainersByIdentifierWithWrites noWrites fake arg1 =
      FindContainersByIdentifier fake arg1 := rfl

theorem getContainerWithWrites_of_no_stub
    (writes : StubWrites Container ContainerIdentifier Err)
    (fake : FakeContainerDB Container ContainerIdentifier Err) (handle : String)
    (hstub : fake.GetContainerStub = none) :
    GetContainerWithWrites writes fake handle =
      ((fake.getContainerReturns.result1, fake.getContainerReturns.result2,
          fake.getContainerReturns.result3),
        { fake with
          getContainerArgsForCall :=
            fake.getContainerArgsForCall ++ [GetContainerArgs.mk handle] }) := by
  unfold GetContainerWithWrites
  simp [hstub]

theorem getContainerWithWrites_of_stub
    (writes : StubWrites Container ContainerIdentifier Err)
    (fake : FakeContainerDB Container ContainerIdentifier Err) (handle : String)
    (stub : String → Container × Bool × Err)
    (hstub : fake.GetContainerStub = some stub) :
    GetContainerWithWrites writes fake handle =
      (stub handle,
        writes.getContainer handle { fake with
          getContainerArgsForCall :=
            fake.getContainerArgsForCall ++ [GetContainerArgs.mk handle] }) := by
  unfold GetContainerWithWrites
  simp [hstub]

theorem findContainersByIdentifierWithWrites_of_no_stub
    (writes : StubWrites Container ContainerIdentifier Err)
    (fake : FakeContainerDB Container ContainerIdentifier Err)
    (arg1 : ContainerIdentifier) (hstub : fake.FindContainersByIdentifierStub = none) :
    FindContainersByIdentifierWithWrites writes fake arg1 =
      ((fake.findContainersByIdentifierReturns.result1,
          fake.findContainersByIdentifierReturns.result2),
        { fake with
          findContainersByIdentifierArgsForCall :=
            fake.findContainersByIdentifierArgsForCall ++
              [FindContainersByIdentifierArgs.mk arg1] }) := by
  unfold FindContainersByIdentifierWithWrites
  simp [hstub]

theorem findContainersByIdentifierWithWrites_of_stub
    (writes : StubWrites Container ContainerIdentifier Err)
    (fake : FakeContainerDB Container ContainerIdentifier Err)
    (arg1 : ContainerIdentifier) (stub : ContainerIdentifier → List Container × Err)
    (hstub : fake.FindContainersByIdentifierStub = some stub) :
    FindContainersByIdentifierWithWrites writes fake arg1 =
      (stub arg1,
        writes.findContainersByIdentifier arg1 { fake with
          findContainersByIdentifierArgsForCall :=
            fake.findContainersByIdentifierArgsForCall ++
              [FindContainersByIdentifierArgs.mk arg1] }) := by
  unfold FindContainersByIdentifierWithWrites
  simp [hstub]

theorem getContainerWithWrites_state
    (writes : StubWrites Container ContainerIdentifier Err)
    (fake : FakeContainerDB Container ContainerIdentifier Err) (handle : String)
    (hquiet : fake.GetContainerStub = none ∨
      ∀ s : FakeContainerDB Container ContainerIdentifier Err,
        writes.getContainer handle s = s) :
    (GetContainerWithWrites writes fake handle).2 = { fake with
      getContainerArgsForCall :=
        fake.getContainerArgsForCall ++ [GetContainerArgs.mk handle] } := by
  rcases Option.eq_none_or_eq_some fake.GetContainerStub with hnone | ⟨stub, hsome⟩
  · rw [getContainerWithWrites_of_no_stub writes fake handle hnone]
  · rw [getContainerWithWrites_of_stub writes fake handle stub hsome]
    rcases hquiet with hnone | hid
    · rw [hsome] at hnone
      cases hnone
    · exact hid _

theorem findContainersByIdentifierWithWrites_state
    (writes : StubWrites Container ContainerIdentifier Err)
    (fake : FakeContainerDB Container ContainerIdentifier Err)
    (arg1 : ContainerIdentifier)
    (hquiet : fake.FindContainersByIdentifierStub = none ∨
      ∀ s : FakeContainerDB Container ContainerIdentifier Err,
        writes.findContainersByIdentifier arg1 s = s) :
    (FindContainersByIdentifierWithWrites writes fake arg1).2 = { fake with
      findContainersByIdentifierArgsForCall :=
        fake.findContainersByIdentifierArgsForCall ++
          [FindContainersByIdentifierArgs.mk arg1] } := by
  rcases Option.eq_none_or_eq_some fake.FindContainersByIdentifierStub with
    hnone | ⟨stub, hsome⟩
  · rw [findContainersByIdentifierWithWrites_of_no_stub writes fake arg1 hnone]
  · rw [findContainersByIdentifierWithWrites_of_stub writes fake arg1 stub hsome]
    rcases hquiet with hnone | hid
    · rw [hsome] at hnone
      cases hnone
    · exact hid _

/-- C5, as stated, fails when the installed stub itself writes to the fake: with a
GetContainerStub that calls GetContainerReturns, one call to GetContainer leaves
the stub cleared and the configured returns replaced, so the fake after the
call is not the fake before it plus one log entry; likewise for
FindContainersByIdentifier with a stub that calls
FindContainersByIdentifierReturns. -/
theorem lookup_with_writing_stub_not_read_only :
    (stubbedFake.GetContainerStub.isSome = true ∧
      (GetContainerWithWrites reconfiguringWrites stubbedFake "h1").2.GetContainerStub.isSome
        = false ∧
      stubbedFake.getContainerReturns.result3 = some "boom" ∧
      (GetContainerWithWrites reconfiguringWrites stubbedFake
        "h1").2.getContainerReturns.result3 = some "gone" ∧
      ¬ ((GetContainerWithWrites reconfiguringWrites stubbedFake "h1").2 =
        { stubbedFake with
          getContainerArgsForCall :=
            stubbedFake.getContainerArgsForCall ++ [GetContainerArgs.mk "h1"] })) ∧
    (stubbedFake.FindContainersByIdentifierStub.isSome = true ∧
      (FindContainersByIdentifierWithWrites reconfiguringWrites stubbedFake
        sampleIdentifier).2.FindContainersByIdentifierStub.isSome = false ∧
      stubbedFake.findContainersByIdentifierReturns.result2 = some "boom" ∧
      (FindContainersByIdentifierWithWrites reconfiguringWrites stubbedFake
        sampleIdentifier).2.findContainersByIdentifierReturns.result2 = some "gone" ∧
      ¬ ((FindContainersByIdentifierWithWrites reconfiguringWrites stubbedFake
          sampleIdentifier).2 =
        { stubbedFake with
          findContainersByIdentifierArgsForCall :=
            stubbedFake.findContainersByIdentifierArgsForCall ++
              [FindContainersByIdentifierArgs.mk sampleIdentifier] })) := by
  refine ⟨⟨rfl, rfl, rfl, rfl, ?_⟩, ⟨rfl, rfl, rfl, rfl, ?_⟩⟩
  · intro heq
    have hstub := congrArg (fun f => f.GetContainerStub.isSome) heq
    exact Bool.false_ne_true hstub
  · intro heq
    have hstub := congrArg (fun f => f.FindContainersByIdentifierStub.isSome) heq
    exact Bool.false_ne_true hstub

/-- C5, amended: a call to GetContainer or FindContainersByIdentifier whose stub is
not installed, or whose installed stub does not itself write to the fake,
leaves both stubs and both configured returns as they were and changes the
fake only by appending its own argument to its own call log; when a stub is
installed, the lookup appends the log entry and every further change is what
the stub writes; with no stub installed, a second GetContainer call (any
handle) returns what the first returned, and likewise for
FindContainersByIdentifier. -/
theorem lookup_read_only_unless_stub_writes
    (writes : StubWrites Container ContainerIdentifier Err)
    (fake : FakeContainerDB Container ContainerIdentifier Err)
    (h h2 : String) (id id2 : ContainerIdentifier) :
    ((fake.GetContainerStub = none ∨
        ∀ s : FakeContainerDB Container ContainerIdentifier Err,
          writes.getContainer h s = s) →
      (GetContainerWithWrites writes fake h).2 = { fake with
        getContainerArgsForCall :=
          fake.getContainerArgsForCall ++ [GetContainerArgs.mk h] } ∧
      (GetContainerWithWrites writes fake h).2.GetContainerStub = fake.GetContainerStub ∧
      (GetContainerWithWrites writes fake h).2.getContainerReturns =
        fake.getContainerReturns ∧
      (GetContainerWithWrites writes fake h).2.FindContainersByIdentifierStub =
        fake.FindContainersByIdentifierStub ∧
      (GetContainerWithWrites writes fake h).2.findContainersByIdentifierReturns =
        fake.findContainersByIdentifierReturns) ∧
    ((fake.FindContainersByIdentifierStub = none ∨
        ∀ s : FakeContainerDB Container ContainerIdentifier Err,
          writes.findContainersByIdentifier id s = s) →
      (FindContainersByIdentifierWithWrites writes fake id).2 = { fake with
        findContainersByIdentifierArgsForCall :=
          fake.findContainersByIdentifierArgsForCall ++
            [FindContainersByIdentifierArgs.mk id] } ∧
      (FindContainersByIdentifierWithWrites writes fake id).2.GetContainerStub =
        fake.GetContainerStub ∧
      (FindContainersByIdentifierWithWrites writes fake id).2.getContainerReturns =
        fake.getContainerReturns ∧
      (FindContainersByIdentifierWithWrites writes fake id).2.FindContainersByIdentifierStub =
        fake.FindContainersByIdentifierStub ∧
      (FindContainersByIdentifierWithWrites writes fake id).2.findContainersByIdentifierReturns =
        fake.findContainersByIdentifierReturns) ∧
    (∀ stub : String → Container × Bool × Err, fake.GetContainerStub = some stub →
      (GetContainerWithWrites writes fake h).2 =
        writes.getContainer h { fake with
          getContainerArgsForCall :=
            fake.getContainerArgsForCall ++ [GetContainerArgs.mk h] }) ∧
    (∀ stub : ContainerIdentifier → List Container × Err,
      fake.FindContainersByIdentifierStub = some stub →
      (FindContainersByIdentifierWithWrites writes fake id).2 =
        writes.findContainersByIdentifier id { fake with
          findContainersByIdentifierArgsForCall :=
            fake.findContainersByIdentifierArgsForCall ++
              [FindContainersByIdentifierArgs.mk id] }) ∧
    (fake.GetContainerStub = none →
      (GetContainerWithWrites writes (GetContainerWithWrites writes fake h).2 h2).1 =
        (GetContainerWithWrites writes fake h).1) ∧
    (fake.FindContainersByIdentifierStub = none →
      (FindContainersByIdentifierWithWrites writes
          (FindContainersByIdentifierWithWrites writes fake id).2 id2).1 =
        (FindContainersByIdentifierWithWrites writes fake id).1) := by
  refine ⟨?_, ?_, ?_, ?_, ?_, ?_⟩
  · intro hquiet
    have hstate := getContainerWithWrites_state writes fake h hquiet
    refine ⟨hstate, ?_, ?_, ?_, ?_⟩ <;> rw [hstate]
  · intro hquiet
    have hstate := findContainersByIdentifierWithWrites_state writes fake id hquiet
    refine ⟨hstate, ?_, ?_, ?_, ?_⟩ <;> rw [hstate]
  · intro stub hstub
    rw [getContainerWithWrites_of_stub writes fake h stub hstub]
  · intro stub hstub
    rw [findContainersByIdentifierWithWrites_of_stub writes fake id stub hstub]
  · intro hstub
    have hfirst := getContainerWithWrites_of_no_stub writes fake h hstub
    have hsecond := getContainerWithWrites_of_no_stub writes
      (GetContainerWithWrites writes fake h).2 h2 (by rw [hfirst]; exact hstub)
    rw [hsecond, hfirst]
  · intro hstub
    have hfirst := findContainersByIdentifierWithWrites_of_no_stub writes fake id hstub
    have hsecond := findContainersByIdentifierWithWrites_of_no_stub writes
      (FindContainersByIdentifierWithWrites writes fake id).2 id2
      (by rw [hfirst]; exact hstub)
    rw [hsecond, hfirst]

/-- C5 amended, at concrete fakes: with configured returns and no stub, two
successive lookups with different arguments return the same configured values
and the configured returns stay, whatever a stub would write; with a stub
installed that writes nothing, the stub stays installed. -/
theorem lookup_read_only_unless_stub_writes_witness :
    configuredFake.GetContainerStub = none ∧
    configuredFake.FindContainersByIdentifierStub = none ∧
    (GetContainerWithWrites reconfiguringWrites
        (GetContainerWithWrites reconfiguringWrites configuredFake "h1").2 "h2").1 =
      (GetContainerWithWrites reconfiguringWrites configuredFake "h1").1 ∧
    (FindContainersByIdentifierWithWrites reconfiguringWrites
        (FindContainersByIdentifierWithWrites reconfiguringWrites configuredFake
          sampleIdentifier).2 otherIdentifier).1 =
      (FindContainersByIdentifierWithWrites reconfiguringWrites configuredFake
        sampleIdentifier).1 ∧
    (GetContainerWithWrites reconfiguringWrites configuredFake "h1").2.getContainerReturns =
      configuredFake.getContainerReturns ∧
    (GetContainerWithWrites noWrites stubbedFake "h1").2.GetContainerStub =
      stubbedFake.GetContainerStub :=
  ⟨rfl, rfl,
    (lookup_read_only_unless_stub_writes reconfiguringWrites configuredFake
      "h1" "h2" sampleIdentifier otherIdentifier).2.2.2.2.1 rfl,
    (lookup_read_only_unless_stub_writes reconfiguringWrites configuredFake
      "h1" "h2" sampleIdentifier otherIdentifier).2.2.2.2.2 rfl,
    ((lookup_read_only_unless_stub_writes reconfiguringWrites configuredFake
      "h1" "h2" sampleIdentifier otherIdentifier).1 (Or.inl rfl)).2.2.1,
    ((lookup_read_only_unless_stub_writes noWrites stubbedFake
      "h1" "h2" sampleIdentifier otherIdentifier).1 (Or.inr (fun _ => rfl))).2.1⟩

/-! ## Order of the records found -/

theorem insertByRecency_perm (r : ContainerRecord) (l : List ContainerRecord) :
    (insertByRecency r l).Perm (r :: l) := by
  induction l with
  | nil => exact List.Perm.refl _
  | cons c cs ih =>
    unfold insertByRecency
    split
    · exact List.Perm.refl _
    · exact (List.Perm.cons c ih).trans (List.Perm.swap r c cs)

theorem sortByRecency_perm (l : List ContainerRecord) : (sortByRecency l).Perm l := by
  induction l with
  | nil => exact List.Perm.refl _
  | cons r rs ih =>
    unfold sortByRecency
    exact (insertByRecency_perm r (sortByRecency rs)).trans (List.Perm.cons r ih)

theorem insertByRecency_pairwise (r : ContainerRecord) (l : List ContainerRecord)
    (hl : l.Pairwise (fun a b => b.lastUsedAt ≤ a.lastUsedAt)) :
    (insertByRecency r l).Pairwise (fun a b => b.lastUsedAt ≤ a.lastUsedAt) := by
  induction l with
  | nil => simp [insertByRecency]
  | cons c cs ih =>
    have hc := List.pairwise_cons.mp hl
    unfold insertByRecency
    split
    · rename_i hle
      refine List.pairwise_cons.mpr ⟨?_, hl⟩
      intro x hx
      rcases List.mem_cons.mp hx with hxc | hxcs
      · rw [hxc]
        exact hle
      · exact Nat.le_trans (hc.1 x hxcs) hle
    · rename_i hlt
      refine List.pairwise_cons.mpr ⟨?_, ih hc.2⟩
      intro x hx
      have hx2 := (insertByRecency_perm r cs).subset hx
      rcases List.mem_cons.mp hx2 with hxr | hxcs
      · rw [hxr]
        omega
      · exact hc.1 x hxcs

theorem sortByRecency_pairwise (l : List ContainerRecord) :
    (sortByRecency l).Pairwise (fun a b => b.lastUsedAt ≤ a.lastUsedAt) := by
  induction l with
  | nil => simp [sortByRecency]
  | cons r rs ih =>
    unfold sortByRecency
    exact insertByRecency_pairwise r _ ih

theorem findByIdentifier_perm (store : ContainerRecordStore)
    (id : SpecContainerIdentifier) :
    (findByIdentifier store id).Perm
      (store.filter (fun r => decide (r.identifier = id))) :=
  sortByRecency_perm _

theorem findByIdentifier_pairwise (store : ContainerRecordStore)
    (id : SpecContainerIdentifier) :
    (findByIdentifier store id).Pairwise (fun a b => b.lastUsedAt ≤ a.lastUsedAt) :=
  sortByRecency_pairwise _

theorem lastUsedAt_eq_of_perm (l1 l2 : List ContainerRecord) (hperm : l1.Perm l2)
    (h1 : l1.Pairwise (fun a b => b.lastUsedAt ≤ a.lastUsedAt))
    (h2 : l2.Pairwise (fun a b => b.lastUsedAt ≤ a.lastUsedAt)) :
    l1.map (fun r => r.lastUsedAt) = l2.map (fun r => r.lastUsedAt) := by
  have hs1 : (l1.map (fun r => r.lastUsedAt)).Sorted (fun x y => y ≤ x) :=
    List.pairwise_map.mpr h1
  have hs2 : (l2.map (fun r => r.lastUsedAt)).Sorted (fun x y => y ≤ x) :=
    List.pairwise_map.mpr h2
  haveI : IsAntisymm Nat (fun x y => y ≤ x) := ⟨fun _ _ hxy hyx => Nat.le_antisymm hyx hxy⟩
  exact List.eq_of_perm_of_sorted (hperm.map _) hs1 hs2

theorem eq_of_perm_of_strictly_recent (l1 l2 : List ContainerRecord) (hperm : l1.Perm l2)
    (h1 : l1.Pairwise (fun a b => b.lastUsedAt ≤ a.lastUsedAt))
    (h2 : l2.Pairwise (fun a b => b.lastUsedAt < a.lastUsedAt)) :
    l1 = l2 := by
  have hne2 : l2.Pairwise (fun a b => a.lastUsedAt ≠ b.lastUsedAt) :=
    h2.imp (fun hlt => by omega)
  have hne1 : l1.Pairwise (fun a b => a.lastUsedAt ≠ b.lastUsedAt) :=
    (hperm.pairwise_iff (fun hab => Ne.symm hab)).mpr hne2
  have hlt1 : l1.Pairwise (fun a b => b.lastUsedAt < a.lastUsedAt) :=
    List.Pairwise.imp₂ (fun _ _ hle hne => by omega) h1 hne1
  haveI : IsAntisymm ContainerRecord (fun a b => b.lastUsedAt < a.lastUsedAt) :=
    ⟨fun _ _ hab hba => absurd hab (Nat.lt_asymm hba)⟩
  exact List.eq_of_perm_of_sorted hperm hlt1 h2

/-- C6: lookup by identifier returns all records of the store for that
identifier, each once, ordered most-recently-used first (sorted by lastUsedAt
descending); the lastUsedAt sequence returned does not depend on the order in
which the records were supplied to the store; and three records for the
identifier with lastUsedAt t1 < t2 < t3, supplied in any order, come back in
the order t3, t2, t1. -/
theorem lookupByIdentifier_most_recently_used_first (store : ContainerRecordStore)
    (id : SpecContainerIdentifier) :
    (lookupByIdentifier store id).Perm
      (store.filter (fun r => decide (r.identifier = id))) ∧
    (lookupByIdentifier store id).Pairwise (fun a b => b.lastUsedAt ≤ a.lastUsedAt) ∧
    (∀ supplied : ContainerRecordStore, supplied.Perm store →
      (lookupByIdentifier supplied id).map (fun r => r.lastUsedAt) =
        (lookupByIdentifier store id).map (fun r => r.lastUsedAt)) ∧
    (∀ r1 r2 r3 : ContainerRecord,
      r1.identifier = id → r2.identifier = id → r3.identifier = id →
      r1.lastUsedAt < r2.lastUsedAt → r2.lastUsedAt < r3.lastUsedAt →
      store.Perm [r1, r2, r3] →
      lookupByIdentifier store id = [r3, r2, r1]) := by
  refine ⟨findByIdentifier_perm store id, findByIdentifier_pairwise store id, ?_, ?_⟩
  · intro supplied hperm
    refine lastUsedAt_eq_of_perm _ _ ?_ (findByIdentifier_pairwise supplied id)
      (findByIdentifier_pairwise store id)
    exact ((findByIdentifier_perm supplied id).trans (hperm.filter _)).trans
      (findByIdentifier_perm store id).symm
  · intro r1 r2 r3 hid1 hid2 hid3 h12 h23 hperm
    have hall : [r1, r2, r3].filter (fun r => decide (r.identifier = id)) = [r1, r2, r3] := by
      simp [hid1, hid2, hid3]
    have hfound : (lookupByIdentifier store id).Perm [r3, r2, r1] := by
      have hfilter := hperm.filter (fun r => decide (r.identifier = id))
      rw [hall] at hfilter
      have hrev : [r1, r2, r3].Perm [r3, r2, r1] := List.reverse_perm [r3, r2, r1]
      exact ((findByIdentifier_perm store id).trans hfilter).trans hrev
    refine eq_of_perm_of_strictly_recent _ _ hfound (findByIdentifier_pairwise store id) ?_
    simp only [List.pairwise_cons, List.mem_cons, List.mem_singleton, List.not_mem_nil,
      List.Pairwise.nil, forall_eq_or_imp, forall_eq, and_true, false_implies,
      implies_true]
    omega

/-- C6 at a concrete store: three records for one identifier inserted in the
order t2, t3, t1 are looked up in the order t3, t2, t1. -/
theorem lookupByIdentifier_most_recently_used_first_witness :
    sampleStore.Perm
      [historicalRecord "h1" 1, historicalRecord "h2" 2, recordUsedAt "h3" 3] ∧
    lookupByIdentifier sampleStore sampleIdentifier =
      [recordUsedAt "h3" 3, historicalRecord "h2" 2, historicalRecord "h1" 1] ∧
    (lookupByIdentifier
        [historicalRecord "h1" 1, historicalRecord "h2" 2, recordUsedAt "h3" 3]
        sampleIdentifier).map (fun r => r.lastUsedAt) =
      (lookupByIdentifier sampleStore sampleIdentifier).map (fun r => r.lastUsedAt) :=
  have hperm : sampleStore.Perm
      [historicalRecord "h1" 1, historicalRecord "h2" 2, recordUsedAt "h3" 3] :=
    show ([historicalRecord "h2" 2, recordUsedAt "h3" 3] ++ [historicalRecord "h1" 1]).Perm
        ([historicalRecord "h1" 1] ++ [historicalRecord "h2" 2, recordUsedAt "h3" 3])
      from List.perm_append_comm
  ⟨hperm,
    (lookupByIdentifier_most_recently_used_first sampleStore sampleIdentifier).2.2.2
      (historicalRecord "h1" 1) (historicalRecord "h2" 2) (recordUsedAt "h3" 3)
      rfl rfl rfl (by decide) (by decide) hperm,
    (lookupByIdentifier_most_recently_used_first sampleStore sampleIdentifier).2.2.1
      [historicalRecord "h1" 1, historicalRecord "h2" 2, recordUsedAt "h3" 3] hperm.symm⟩

end Fakes
